import Mathlib

set_option autoImplicit false

/-!
Shallow embedding of `gatco_sqlalchemy/__init__.py`.

Python dictionaries holding configuration are modelled as a structure of
`Option`-typed fields (`none` stands both for an absent key and for the
Python value `None`, which is what `dict.get` conflates).  Python
truthiness is modelled per type: `none`/`some ""` for strings,
`none`/`some []` for the binds mapping, `none`/`some false` for booleans,
`none`/`some 0` for integers.  Exceptions are modelled with `Except`.
-/

namespace GatcoSqlalchemy

/-- The recognized `SQLALCHEMY_*` configuration keys of an application,
as read through `app.config.get`. -/
structure Config where
  database_uri : Option String
  binds : Option (List (String × String))
  native_unicode : Option Bool
  echo : Option Bool
  record_queries : Option Bool
  pool_size : Option Int
  pool_timeout : Option Int
  pool_recycle : Option Int
  max_overflow : Option Int
  commit_on_response : Option Bool
deriving DecidableEq, Repr

/-- `SQLAlchemy.init_app` (lines 171-183): every config key is replaced by
`app.config.get(key) or default`, i.e. a falsy value collapses to the
default. -/
def init_app (cfg : Config) : Config :=
  { database_uri := some (match cfg.database_uri with
      | some s => if s = "" then "sqlite:///:memory:" else s
      | none => "sqlite:///:memory:")
    binds := (match cfg.binds with
      | some l => if l = [] then none else some l
      | none => none)
    native_unicode := (match cfg.native_unicode with
      | some b => if b then some b else none
      | none => none)
    echo := some (cfg.echo.getD false)
    record_queries := (match cfg.record_queries with
      | some b => if b then some b else none
      | none => none)
    pool_size := (match cfg.pool_size with
      | some n => if n = 0 then none else some n
      | none => none)
    pool_timeout := (match cfg.pool_timeout with
      | some n => if n = 0 then none else some n
      | none => none)
    pool_recycle := (match cfg.pool_recycle with
      | some n => if n = 0 then none else some n
      | none => none)
    max_overflow := (match cfg.max_overflow with
      | some n => if n = 0 then none else some n
      | none => none)
    commit_on_response := some (cfg.commit_on_response.getD false) }

/-- The pool classes that `apply_driver_hacks` may select. -/
inductive PoolClass where
  | staticPool
  | nullPool
deriving DecidableEq, Repr

/-- The `connect_args` sub-dictionary of the engine options. -/
structure ConnectArgs where
  check_same_thread : Option Bool
deriving DecidableEq, Repr

def ConnectArgs.empty : ConnectArgs := ⟨none⟩

/-- The keyword-options dictionary handed to `sqlalchemy.create_engine`
(the keys this adapter ever writes). -/
structure EngineOptions where
  pool_size : Option Int
  pool_timeout : Option Int
  pool_recycle : Option Int
  max_overflow : Option Int
  poolclass : Option PoolClass
  connect_args : Option ConnectArgs
  use_native_unicode : Option Bool
  echo : Option Bool
deriving DecidableEq, Repr

def EngineOptions.empty : EngineOptions := ⟨none, none, none, none, none, none, none, none⟩

/-- `SQLAlchemy.apply_pool_defaults` (lines 199-207): copy each pool
config value into the options dictionary when it is not `None`. -/
def apply_pool_defaults (cfg : Config) (options : EngineOptions) : EngineOptions :=
  let o1 := (match cfg.pool_size with
    | some v => { options with pool_size := some v }
    | none => options)
  let o2 := (match cfg.pool_timeout with
    | some v => { o1 with pool_timeout := some v }
    | none => o1)
  let o3 := (match cfg.pool_recycle with
    | some v => { o2 with pool_recycle := some v }
    | none => o2)
  (match cfg.max_overflow with
    | some v => { o3 with max_overflow := some v }
    | none => o3)

/-- The parts of a parsed database URL (`make_url`) that
`apply_driver_hacks` inspects: the driver name, the database path
(`none` models Python `None`), and the `charset` entry of the query. -/
structure UrlInfo where
  drivername : String
  database : Option String
  query_charset : Option String
deriving DecidableEq, Repr

/-- Python `str.startswith`, executable on character lists. -/
def startswith (s p : String) : Bool := p.data.isPrefixOf s.data

/-- The driver-dispatch part of `SQLAlchemy.apply_driver_hacks`
(lines 210-230): the MySQL-family charset and pool defaults, and the
SQLite pool-class selection with the in-memory `RuntimeError`. -/
def apply_driver_hacks_branch (info : UrlInfo) (options : EngineOptions) :
    Except String (UrlInfo × EngineOptions) :=
  if startswith info.drivername "mysql" then
    if info.drivername = "mysql+gaerdbms" then
      Except.ok ({ info with query_charset := some (info.query_charset.getD "utf8") }, options)
    else
      Except.ok ({ info with query_charset := some (info.query_charset.getD "utf8") },
        { options with
          pool_size := some (options.pool_size.getD 10),
          pool_recycle := some (options.pool_recycle.getD 7200) })
  else if info.drivername = "sqlite" then
    if info.database = none ∨ info.database = some "" ∨ info.database = some ":memory:" then
      if options.pool_size = some 0 then
        Except.error "SQLite in memory database with an empty queue not possible due to data loss."
      else
        Except.ok (info, { options with
          poolclass := some PoolClass.staticPool,
          connect_args := some { options.connect_args.getD ConnectArgs.empty with
            check_same_thread := some false } })
    else if options.pool_size = none ∨ options.pool_size = some 0 then
      Except.ok (info, { options with poolclass := some PoolClass.nullPool })
    else
      Except.ok (info, options)
  else
    Except.ok (info, options)

/-- The trailing native-unicode block of `apply_driver_hacks`
(lines 232-236); it runs only when no `RuntimeError` was raised. -/
def apply_unicode_hack (use_native_unicode : Bool) (cfg : Config)
    (r : UrlInfo × EngineOptions) : UrlInfo × EngineOptions :=
  if cfg.native_unicode.getD use_native_unicode then r
  else (r.1, { r.2 with use_native_unicode := some false })

/-- `SQLAlchemy.apply_driver_hacks` (lines 209-236).  The Python code
mutates `info` and `options` in place and may raise `RuntimeError`; here
it returns the updated pair or the error message. -/
def apply_driver_hacks (use_native_unicode : Bool) (cfg : Config) (info : UrlInfo)
    (options : EngineOptions) : Except String (UrlInfo × EngineOptions) :=
  Except.map (apply_unicode_hack use_native_unicode cfg) (apply_driver_hacks_branch info options)

/-- The options pipeline of `_EngineConnector.get_engine`
(lines 115-117): start from an empty options dictionary, apply the pool
defaults read from the live configuration, then the driver hacks. -/
def get_engine_options (cfg : Config) (use_native_unicode : Bool) (info : UrlInfo) :
    Except String (UrlInfo × EngineOptions) :=
  apply_driver_hacks use_native_unicode cfg info (apply_pool_defaults cfg EngineOptions.empty)

/-- First-match association-list lookup, the model of Python dictionary
indexing for the dictionaries this adapter reads. -/
def afind {α β : Type} [DecidableEq α] (k : α) : List (α × β) → Option β
  | [] => none
  | p :: rest => if p.1 = k then some p.2 else afind k rest

/-- `_EngineConnector.get_uri` (lines 101-106): the primary URI for bind
`none`, otherwise a lookup into `SQLALCHEMY_BINDS` that fails (the
`assert`) with a message naming the bind when the key is absent. -/
def get_uri (cfg : Config) (bind : Option String) : Except String (Option String) :=
  match bind with
  | none => Except.ok cfg.database_uri
  | some b =>
    let binds := cfg.binds.getD []
    match afind b binds with
    | some uri => Except.ok (some uri)
    | none => Except.error
        ("Bind " ++ b ++ " is not specified. Set it in the SQLALCHEMY_BINDS configuration variable")

/-- A physical connection-pool handle, as produced by
`sqlalchemy.create_engine`; `id` makes each construction a distinct
object, mirroring Python object identity. -/
structure PoolHandle where
  id : Nat
  uri : String
  echo : Bool
deriving DecidableEq, Repr

/-- The mutable state of `_EngineConnector` (lines 92-99): the cached
engine and the `(uri, echo)` pair it was connected for. -/
structure EngineConnector where
  engine : Option PoolHandle
  connected_for : Option (String × Bool)
deriving DecidableEq, Repr

/-- A freshly constructed connector (`_engine = None`,
`_connected_for = None`). -/
def EngineConnector.init : EngineConnector := ⟨none, none⟩

/-- `_EngineConnector.get_engine` (lines 108-122), at the caching level:
given the resolved URI and the echo flag, return the cached handle when
`(uri, echo)` equals `_connected_for`, otherwise construct a new handle
(`fresh_id` identifies the new object) and record it. -/
def EngineConnector.get_engine (c : EngineConnector) (uri : String) (echo : Bool)
    (fresh_id : Nat) : Option PoolHandle × EngineConnector :=
  if c.connected_for = some (uri, echo) then
    (c.engine, c)
  else
    let h := PoolHandle.mk fresh_id uri echo
    (some h, ⟨some h, some (uri, echo)⟩)

/-- The identity-determining content of the engine that
`SQLAlchemy.get_engine(app, bind)` yields for a bind: the URI resolved
for that bind and the application's echo flag (lines 110-121). -/
structure Engine where
  uri : String
  echo : Bool
deriving DecidableEq, Repr

/-- The engine `SQLAlchemy.get_engine(app, bind)` (lines 245-254)
resolves for a bind, at value level: resolve the URI through
`_EngineConnector.get_uri`, then build the engine from it and the echo
flag; `make_url(None)` is a failure. -/
def resolve_engine (cfg : Config) (bind : Option String) : Except String Engine :=
  match get_uri cfg bind with
  | Except.error e => Except.error e
  | Except.ok none => Except.error "make_url: no database URI configured"
  | Except.ok (some u) => Except.ok (Engine.mk u (cfg.echo.getD false))

/-- A declared table: its name and the `bind_key` entry of its `info`
dictionary (`none` when absent or `None`). -/
structure Table where
  name : String
  bind_key : Option String
deriving DecidableEq, Repr

/-- `SQLAlchemy.get_tables_for_bind` (lines 265-270): the declared tables
whose `bind_key` equals the given bind. -/
def get_tables_for_bind (tables : List Table) (bind : Option String) : List Table :=
  tables.filter (fun t => decide (t.bind_key = bind))

/-- The loop body of `SQLAlchemy.get_binds` (lines 276-279): for each
bind in order, pair every table owned by that bind with the bind's
resolved engine. -/
def get_binds_loop (cfg : Config) (tables : List Table) :
    List (Option String) → Except String (List (Table × Engine))
  | [] => Except.ok []
  | b :: rest =>
    match resolve_engine cfg b with
    | Except.error e => Except.error e
    | Except.ok eng =>
      match get_binds_loop cfg tables rest with
      | Except.error e => Except.error e
      | Except.ok l => Except.ok ((get_tables_for_bind tables b).map (fun t => (t, eng)) ++ l)

/-- `SQLAlchemy.get_binds` (lines 272-280): iterate `None` followed by
the configured secondary binds in declaration order and collect the
table-to-engine mapping. -/
def get_binds (cfg : Config) (tables : List Table) : Except String (List (Table × Engine)) :=
  get_binds_loop cfg tables (none :: (cfg.binds.getD []).map (fun p => some p.1))

/-- The Python value handed to `create_all`/`drop_all`/`reflect` as the
`bind` argument: a string, `None`, or a list of bind identifiers. -/
inductive BindSelector where
  | str (s : String)
  | pyNone
  | list (bs : List (Option String))
deriving DecidableEq, Repr

/-- The bind-selection dispatch of `_execute_for_all_tables`
(lines 284-289). -/
def select_binds (cfg : Config) : BindSelector → List (Option String)
  | BindSelector.str s =>
    if s = "__all__" then none :: (cfg.binds.getD []).map (fun p => some p.1) else [some s]
  | BindSelector.pyNone => [none]
  | BindSelector.list bs => bs

/-- One invocation of the metadata operation performed by
`_execute_for_all_tables` for a selected bind: the engine it runs
against and the `tables` keyword (absent when `skip_tables`). -/
structure SchemaOp where
  bind : Option String
  engine : Engine
  tables : Option (List Table)
deriving DecidableEq, Repr

/-- The per-bind loop of `_execute_for_all_tables` (lines 291-297). -/
def execute_loop (cfg : Config) (tables : List Table) (skip_tables : Bool) :
    List (Option String) → Except String (List SchemaOp)
  | [] => Except.ok []
  | b :: rest =>
    match resolve_engine cfg b with
    | Except.error e => Except.error e
    | Except.ok eng =>
      match execute_loop cfg tables skip_tables rest with
      | Except.error e => Except.error e
      | Except.ok l =>
        Except.ok
          (SchemaOp.mk b eng (if skip_tables then none else some (get_tables_for_bind tables b)) :: l)

/-- `SQLAlchemy._execute_for_all_tables` (lines 282-297), recording the
sequence of metadata operations it performs. -/
def execute_for_all_tables (cfg : Config) (tables : List Table) (bind : BindSelector)
    (skip_tables : Bool) : Except String (List SchemaOp) :=
  execute_loop cfg tables skip_tables (select_binds cfg bind)

/-- `SQLAlchemy.create_all` (lines 299-300). -/
def create_all (cfg : Config) (tables : List Table) (bind : BindSelector) :
    Except String (List SchemaOp) :=
  execute_for_all_tables cfg tables bind false

/-- `SQLAlchemy.drop_all` (lines 302-303). -/
def drop_all (cfg : Config) (tables : List Table) (bind : BindSelector) :
    Except String (List SchemaOp) :=
  execute_for_all_tables cfg tables bind false

/-- `SQLAlchemy.reflect` (lines 305-306): `skip_tables` is set. -/
def reflect (cfg : Config) (tables : List Table) (bind : BindSelector) :
    Except String (List SchemaOp) :=
  execute_for_all_tables cfg tables bind true

/-- What the response hook does to the scoped session. -/
inductive SessionAction where
  | commit
  | rollback
  | remove
deriving DecidableEq, Repr

/-- The `shutdown_session` response middleware (lines 188-197):
`try: if flag: commit / except: rollback; raise / finally: remove`.
The outcome of `session.commit()` is the parameter `commit_result`; the
returned list is the sequence of session calls made (a `commit` entry
records the attempt), and the second component is the exception the hook
re-raises, if any. -/
def shutdown_session {ε : Type} (commit_on_response : Bool) (commit_result : Except ε Unit) :
    List SessionAction × Option ε :=
  if commit_on_response then
    match commit_result with
    | Except.ok _ => ([SessionAction.commit, SessionAction.remove], none)
    | Except.error e =>
      ([SessionAction.commit, SessionAction.rollback, SessionAction.remove], some e)
  else
    ([SessionAction.remove], none)

/-- Modelled from the spec: the scope-identity-keyed session registry
realized by the wrapped ORM library's `scoped_session` (constructed in
`SQLAlchemy.create_scoped_session`, lines 151-156, with
`scopefunc = asyncio.current_task`); that registry's own code is not part
of this repository.  Sessions are identified by a counter so each
construction yields a distinct instance; `sessions` maps scope
identities to the memoized instance. -/
structure ScopedSessionRegistry where
  sessions : List (Nat × Nat)
  next_id : Nat
deriving DecidableEq, Repr

/-- Modelled from the spec: accessing the scoped session under a scope
identity returns the memoized instance, or constructs and memoizes a
fresh one. -/
def ScopedSessionRegistry.access (r : ScopedSessionRegistry) (ident : Nat) :
    Nat × ScopedSessionRegistry :=
  match afind ident r.sessions with
  | some s => (s, r)
  | none => (r.next_id, ScopedSessionRegistry.mk ((ident, r.next_id) :: r.sessions) (r.next_id + 1))

/-- Modelled from the spec: `remove()` drops the memoized instance for
the given scope identity. -/
def ScopedSessionRegistry.remove (r : ScopedSessionRegistry) (ident : Nat) :
    ScopedSessionRegistry :=
  ScopedSessionRegistry.mk (r.sessions.filter (fun p => decide (p.1 ≠ ident))) r.next_id

/-- Registry sanity: every memoized session id precedes the counter and
no session instance is memoized under two identities. -/
def ScopedSessionRegistry.Inv (r : ScopedSessionRegistry) : Prop :=
  (∀ p ∈ r.sessions, p.2 < r.next_id) ∧ (r.sessions.map Prod.snd).Nodup

instance (r : ScopedSessionRegistry) : Decidable r.Inv := by
  unfold ScopedSessionRegistry.Inv
  infer_instance

/-- Total form of `resolve_engine`, defined wherever resolution
succeeds; it phrases the closed form of `get_binds`. -/
def resolve_engine_total (cfg : Config) (b : Option String) : Engine :=
  match resolve_engine cfg b with
  | Except.ok e => e
  | Except.error _ => Engine.mk "" false

/-- A sample application configuration: a primary in-memory database and
one secondary bind named `reporting`. -/
def demo_config : Config :=
  Config.mk (some "sqlite:///:memory:") (some [("reporting", "sqlite:///reporting.db")])
    none none none none none none none none

/-- Sample declared tables: one on the primary database and one on the
`reporting` bind. -/
def demo_tables : List Table :=
  [Table.mk "users" none, Table.mk "reports" (some "reporting")]

/-! ### Helper lemmas about association-list lookup -/

theorem afind_mem {α β : Type} [DecidableEq α] {k : α} {v : β} {l : List (α × β)}
    (h : afind k l = some v) : (k, v) ∈ l := by
  induction l with
  | nil => simp [afind] at h
  | cons p rest ih =>
    by_cases hp : p.1 = k
    · rw [afind, if_pos hp] at h
      have : p = (k, v) := by
        cases p
        simp only [Option.some.injEq] at h
        simp_all
      simp [this]
    · rw [afind, if_neg hp] at h
      exact List.mem_cons_of_mem _ (ih h)

theorem afind_filter_ne {α β : Type} [DecidableEq α] (k : α) (l : List (α × β)) :
    afind k (l.filter (fun p => decide (p.1 ≠ k))) = none := by
  induction l with
  | nil => rfl
  | cons p rest ih =>
    by_cases hp : p.1 = k
    · simp only [List.filter_cons, hp]
      simpa using ih
    · simp only [List.filter_cons]
      rw [if_pos (by simpa using hp)]
      rw [afind, if_neg hp]
      exact ih

theorem afind_filter_ne_bnot {α β : Type} [DecidableEq α] (k : α) (l : List (α × β)) :
    afind k (l.filter (fun p => !decide (p.1 = k))) = none := by
  induction l with
  | nil => rfl
  | cons p rest ih =>
    by_cases hp : p.1 = k
    · simp [List.filter_cons, hp, ih]
    · simp [List.filter_cons, hp, afind, ih]

theorem afind_isSome_of_mem_keys {α β : Type} [DecidableEq α] {x : α} {l : List (α × β)}
    (h : x ∈ l.map Prod.fst) : ∃ v, afind x l = some v := by
  induction l with
  | nil => simp at h
  | cons p rest ih =>
    by_cases hp : p.1 = x
    · exact ⟨p.2, by rw [afind, if_pos hp]⟩
    · rw [List.map_cons, List.mem_cons] at h
      rcases h with h | h
      · exact absurd h.symm hp
      · rcases ih h with ⟨v, hv⟩
        exact ⟨v, by rw [afind, if_neg hp]; exact hv⟩

/-! ### Claims -/

/-- C6: for every bind identifier `b` (including `none` for the primary
database), `get_tables_for_bind b` returns exactly the declared tables
whose bind attribute equals `b` under exact equality. -/
theorem get_tables_for_bind_exact (tables : List Table) (bind : Option String) (t : Table) :
    t ∈ get_tables_for_bind tables bind ↔ t ∈ tables ∧ t.bind_key = bind := by
  simp [get_tables_for_bind, List.mem_filter]

/-- C5: requesting the URI for a bind name absent from the secondary-URI
mapping fails with an error naming the offending bind; for a declared
bind name the mapped URI is resolved. -/
theorem get_uri_bind_resolution (cfg : Config) (b : String) :
    (afind b (cfg.binds.getD []) = none →
      ∃ pre suf, get_uri cfg (some b) = Except.error (pre ++ b ++ suf)) ∧
    (∀ uri, afind b (cfg.binds.getD []) = some uri →
      get_uri cfg (some b) = Except.ok (some uri)) := by
  constructor
  · intro h
    refine ⟨"Bind ",
      " is not specified. Set it in the SQLALCHEMY_BINDS configuration variable", ?_⟩
    simp [get_uri, h]
  · intro uri h
    simp [get_uri, h]

theorem get_uri_bind_resolution_witness :
    ∃ pre suf,
      get_uri
        (Config.mk (some "sqlite:///:memory:") (some [("reporting", "sqlite:///reporting.db")])
          none none none none none none none none)
        (some "missing")
        = Except.error (pre ++ "missing" ++ suf) :=
  (get_uri_bind_resolution _ "missing").1 rfl

/-- C3: the response hook commits the scoped session when
commit-on-response is configured; a failing commit is rolled back and
the original exception re-raised unchanged; and in every case the
scoped session is removed before the hook returns. -/
theorem shutdown_session_behaviour {ε : Type} (flag : Bool) (res : Except ε Unit) :
    (shutdown_session flag res).1.getLast? = some SessionAction.remove ∧
    (flag = false → shutdown_session flag res = ([SessionAction.remove], none)) ∧
    (flag = true → res = Except.ok () →
      shutdown_session flag res = ([SessionAction.commit, SessionAction.remove], none)) ∧
    (flag = true → ∀ e, res = Except.error e →
      shutdown_session flag res =
        ([SessionAction.commit, SessionAction.rollback, SessionAction.remove], some e)) := by
  cases flag <;> cases res <;> simp [shutdown_session]

theorem shutdown_session_behaviour_witness :
    shutdown_session true (Except.error (7 : Nat)) =
      ([SessionAction.commit, SessionAction.rollback, SessionAction.remove], some 7) :=
  (shutdown_session_behaviour true (Except.error 7)).2.2.2 rfl 7 rfl

/-- C1: two consecutive `get_engine` calls with the resolved URI and
echo flag both unchanged return the identical cached pool handle and
leave the connector unchanged; whenever either differs from the pair
recorded at the previous construction, a new pool handle is constructed
and replaces the cached one. -/
theorem engine_connector_caching (c : EngineConnector) (uri : String) (echo : Bool)
    (fid fid2 : Nat) (hfresh : ∀ e : PoolHandle, c.engine = some e → e.id ≠ fid2)
    (hne : fid ≠ fid2) :
    ((c.get_engine uri echo fid).2.get_engine uri echo fid2
        = ((c.get_engine uri echo fid).1, (c.get_engine uri echo fid).2)) ∧
    (∀ uri2 echo2, ¬(uri2 = uri ∧ echo2 = echo) →
      ((c.get_engine uri echo fid).2.get_engine uri2 echo2 fid2).1
          = some (PoolHandle.mk fid2 uri2 echo2) ∧
      ((c.get_engine uri echo fid).2.get_engine uri2 echo2 fid2).2.engine
          = some (PoolHandle.mk fid2 uri2 echo2) ∧
      ((c.get_engine uri echo fid).2.get_engine uri2 echo2 fid2).1
          ≠ (c.get_engine uri echo fid).1) := by
  by_cases h : c.connected_for = some (uri, echo)
  · have h1 : c.get_engine uri echo fid = (c.engine, c) := by
      rw [EngineConnector.get_engine, if_pos h]
    rw [h1]
    refine ⟨by rw [EngineConnector.get_engine, if_pos h], ?_⟩
    intro uri2 echo2 hne2
    have hcf : ¬c.connected_for = some (uri2, echo2) := by
      rw [h]
      intro hx
      have hp := Option.some.inj hx
      exact hne2 ⟨(Prod.mk.inj hp).1.symm, (Prod.mk.inj hp).2.symm⟩
    have h2 : c.get_engine uri2 echo2 fid2 =
        (some (PoolHandle.mk fid2 uri2 echo2),
         EngineConnector.mk (some (PoolHandle.mk fid2 uri2 echo2)) (some (uri2, echo2))) := by
      rw [EngineConnector.get_engine, if_neg hcf]
    rw [h2]
    refine ⟨rfl, rfl, ?_⟩
    show ¬some (PoolHandle.mk fid2 uri2 echo2) = c.engine
    cases hce : c.engine with
    | none => simp
    | some e =>
      intro hx
      have he := Option.some.inj hx
      exact hfresh e hce (congrArg PoolHandle.id he).symm
  · have h1 : c.get_engine uri echo fid =
        (some (PoolHandle.mk fid uri echo),
         EngineConnector.mk (some (PoolHandle.mk fid uri echo)) (some (uri, echo))) := by
      rw [EngineConnector.get_engine, if_neg h]
    rw [h1]
    constructor
    · rw [EngineConnector.get_engine]
      rw [if_pos rfl]
    · intro uri2 echo2 hne2
      have hcf :
          ¬(EngineConnector.mk (some (PoolHandle.mk fid uri echo))
              (some (uri, echo))).connected_for = some (uri2, echo2) := by
        intro hx
        have hp := Option.some.inj hx
        exact hne2 ⟨(Prod.mk.inj hp).1.symm, (Prod.mk.inj hp).2.symm⟩
      rw [EngineConnector.get_engine, if_neg hcf]
      refine ⟨rfl, rfl, ?_⟩
      intro hx
      have he := Option.some.inj hx
      exact hne (congrArg PoolHandle.id he).symm

theorem engine_connector_caching_witness :
    ((EngineConnector.init.get_engine "sqlite:///:memory:" false 0).2.get_engine
        "sqlite:///:memory:" false 1)
      = ((EngineConnector.init.get_engine "sqlite:///:memory:" false 0).1,
         (EngineConnector.init.get_engine "sqlite:///:memory:" false 0).2) :=
  (engine_connector_caching EngineConnector.init "sqlite:///:memory:" false 0 1
    (fun e he => by simp [EngineConnector.init] at he) (by decide)).1

/-- C2: two accesses to the scoped session under the same identity with
no intervening `remove` return the identical unit-of-work instance,
accesses under two different identities never return the same instance,
and after `remove` the next access under that identity constructs a
fresh instance. -/
theorem scoped_session_scoping (r : ScopedSessionRegistry) (h : r.Inv) (i j : Nat)
    (hij : i ≠ j) :
    ((r.access i).2.access i).1 = (r.access i).1 ∧
    ((r.access i).2.access j).1 ≠ (r.access i).1 ∧
    afind i ((r.access i).2.remove i).sessions = none ∧
    (((r.access i).2.remove i).access i).1 ≠ (r.access i).1 := by
  obtain ⟨hlt, hnd⟩ := h
  cases hfi : afind i r.sessions with
  | some s =>
    have hmem : (i, s) ∈ r.sessions := afind_mem hfi
    have hs_lt : s < r.next_id := hlt _ hmem
    have h1 : r.access i = (s, r) := by
      simp [ScopedSessionRegistry.access, hfi]
    rw [h1]
    refine ⟨?_, ?_, ?_, ?_⟩
    · show (r.access i).1 = s
      rw [h1]
    · show (r.access j).1 ≠ s
      cases hfj : afind j r.sessions with
      | some s2 =>
        have hmem2 : (j, s2) ∈ r.sessions := afind_mem hfj
        have h2 : r.access j = (s2, r) := by simp [ScopedSessionRegistry.access, hfj]
        rw [h2]
        show s2 ≠ s
        intro heq
        have := List.inj_on_of_nodup_map hnd hmem2 hmem heq
        exact hij (congrArg Prod.fst this).symm
      | none =>
        have h2 : (r.access j).1 = r.next_id := by simp [ScopedSessionRegistry.access, hfj]
        rw [h2]
        exact Nat.ne_of_gt hs_lt
    · show afind i (r.remove i).sessions = none
      exact afind_filter_ne i r.sessions
    · show ((r.remove i).access i).1 ≠ s
      have h4 : ((r.remove i).access i).1 = (r.remove i).next_id := by
        simp [ScopedSessionRegistry.access, ScopedSessionRegistry.remove, afind_filter_ne_bnot]
      rw [h4]
      exact Nat.ne_of_gt hs_lt
  | none =>
    have h1 : r.access i =
        (r.next_id, ScopedSessionRegistry.mk ((i, r.next_id) :: r.sessions) (r.next_id + 1)) := by
      simp [ScopedSessionRegistry.access, hfi]
    rw [h1]
    have hne : ¬((i, r.next_id) : Nat × Nat).1 = j := hij
    refine ⟨?_, ?_, ?_, ?_⟩
    · show ((ScopedSessionRegistry.mk ((i, r.next_id) :: r.sessions) (r.next_id + 1)).access i).1
          = r.next_id
      simp [ScopedSessionRegistry.access, afind]
    · show ((ScopedSessionRegistry.mk ((i, r.next_id) :: r.sessions) (r.next_id + 1)).access j).1
          ≠ r.next_id
      cases hfj : afind j r.sessions with
      | some s2 =>
        have hmem2 : (j, s2) ∈ r.sessions := afind_mem hfj
        have hs2 : s2 < r.next_id := hlt _ hmem2
        have h2 : afind j ((i, r.next_id) :: r.sessions) = some s2 := by
          rw [afind, if_neg hne]; exact hfj
        simp only [ScopedSessionRegistry.access, h2]
        exact Nat.ne_of_lt hs2
      | none =>
        have h2 : afind j ((i, r.next_id) :: r.sessions) = none := by
          rw [afind, if_neg hne]; exact hfj
        simp [ScopedSessionRegistry.access, h2]
    · exact afind_filter_ne i _
    · show (((ScopedSessionRegistry.mk ((i, r.next_id) :: r.sessions) (r.next_id + 1)).remove
          i).access i).1 ≠ r.next_id
      simp [ScopedSessionRegistry.remove, ScopedSessionRegistry.access, afind_filter_ne_bnot]

theorem apply_unicode_hack_fields (unu : Bool) (cfg : Config) (r : UrlInfo × EngineOptions) :
    (apply_unicode_hack unu cfg r).1 = r.1 ∧
    (apply_unicode_hack unu cfg r).2.pool_size = r.2.pool_size ∧
    (apply_unicode_hack unu cfg r).2.pool_recycle = r.2.pool_recycle ∧
    (apply_unicode_hack unu cfg r).2.poolclass = r.2.poolclass ∧
    (apply_unicode_hack unu cfg r).2.connect_args = r.2.connect_args := by
  unfold apply_unicode_hack
  cases h : cfg.native_unicode.getD unu <;> simp [h]

theorem apply_pool_defaults_empty (cfg : Config) :
    (apply_pool_defaults cfg EngineOptions.empty).pool_size = cfg.pool_size ∧
    (apply_pool_defaults cfg EngineOptions.empty).poolclass = none ∧
    (apply_pool_defaults cfg EngineOptions.empty).connect_args = none := by
  unfold apply_pool_defaults EngineOptions.empty
  cases cfg.pool_size <;> cases cfg.pool_timeout <;> cases cfg.pool_recycle <;>
    cases cfg.max_overflow <;> simp

theorem apply_driver_hacks_ok (unu : Bool) (cfg : Config) {info : UrlInfo}
    {options : EngineOptions} {info2 : UrlInfo} {options2 : EngineOptions}
    (h : apply_driver_hacks_branch info options = Except.ok (info2, options2)) :
    apply_driver_hacks unu cfg info options =
      Except.ok ((apply_unicode_hack unu cfg (info2, options2)).1,
        (apply_unicode_hack unu cfg (info2, options2)).2) := by
  unfold apply_driver_hacks
  rw [h]
  rfl

theorem apply_driver_hacks_err (unu : Bool) (cfg : Config) {info : UrlInfo}
    {options : EngineOptions} {e : String}
    (h : apply_driver_hacks_branch info options = Except.error e) :
    apply_driver_hacks unu cfg info options = Except.error e := by
  unfold apply_driver_hacks
  rw [h]
  rfl

theorem apply_driver_hacks_sqlite_memory (unu : Bool) (cfg : Config) (info : UrlInfo)
    (options : EngineOptions) (hd : info.drivername = "sqlite")
    (hm : info.database = none ∨ info.database = some "" ∨ info.database = some ":memory:") :
    (options.pool_size = some 0 →
      apply_driver_hacks unu cfg info options =
        Except.error
          "SQLite in memory database with an empty queue not possible due to data loss.") ∧
    (¬options.pool_size = some 0 →
      ∃ i o, apply_driver_hacks unu cfg info options = Except.ok (i, o) ∧
        o.poolclass = some PoolClass.staticPool ∧
        ∃ ca, o.connect_args = some ca ∧ ca.check_same_thread = some false) := by
  have hnm : ¬startswith info.drivername "mysql" = true := by
    rw [hd]; decide
  constructor
  · intro h0
    refine apply_driver_hacks_err unu cfg ?_
    unfold apply_driver_hacks_branch
    rw [if_neg hnm, if_pos hd, if_pos hm, if_pos h0]
  · intro h0
    have hb : ∃ o2, apply_driver_hacks_branch info options = Except.ok (info, o2) ∧
        o2.poolclass = some PoolClass.staticPool ∧
        o2.connect_args = some (ConnectArgs.mk (some false)) := by
      unfold apply_driver_hacks_branch
      rw [if_neg hnm, if_pos hd, if_pos hm, if_neg h0]
      exact ⟨_, rfl, rfl, rfl⟩
    obtain ⟨o2, hb, hpc, hca⟩ := hb
    rw [apply_driver_hacks_ok unu cfg hb]
    refine ⟨_, _, rfl, ?_, ?_⟩
    · rw [(apply_unicode_hack_fields unu cfg (info, o2)).2.2.2.1]
      exact hpc
    · rw [(apply_unicode_hack_fields unu cfg (info, o2)).2.2.2.2]
      exact ⟨ConnectArgs.mk (some false), hca, rfl⟩

/-- C4: requesting an engine for an in-memory SQLite URI when the live
configuration carries an explicit zero pool size fails fatally with the
in-memory/zero-pool error; for any other configuration an in-memory
SQLite URI yields a single shared static pool with same-thread
connection checks disabled. -/
theorem sqlite_memory_zero_pool (cfg : Config) (unu : Bool) (info : UrlInfo)
    (hd : info.drivername = "sqlite")
    (hm : info.database = none ∨ info.database = some "" ∨ info.database = some ":memory:") :
    (cfg.pool_size = some 0 →
      get_engine_options cfg unu info =
        Except.error
          "SQLite in memory database with an empty queue not possible due to data loss.") ∧
    (¬cfg.pool_size = some 0 →
      ∃ i o, get_engine_options cfg unu info = Except.ok (i, o) ∧
        o.poolclass = some PoolClass.staticPool ∧
        ∃ ca, o.connect_args = some ca ∧ ca.check_same_thread = some false) := by
  have hp := (apply_pool_defaults_empty cfg).1
  have h := apply_driver_hacks_sqlite_memory unu cfg info
    (apply_pool_defaults cfg EngineOptions.empty) hd hm
  exact ⟨fun h0 => h.1 (by rw [hp, h0]), fun h0 => h.2 (by rw [hp]; exact h0)⟩

theorem sqlite_memory_zero_pool_witness :
    get_engine_options
      (Config.mk (some "sqlite:///:memory:") none none none none (some 0) none none none none)
      true (UrlInfo.mk "sqlite" (some ":memory:") none)
      = Except.error
          "SQLite in memory database with an empty queue not possible due to data loss." :=
  (sqlite_memory_zero_pool _ true _ rfl (Or.inr (Or.inr rfl))).1 rfl

/-- C9: for every MySQL-family URI, engine construction defaults the
connection character set to UTF-8 when unset and, unless the driver is
the App-Engine MySQL driver, defaults the pool size to 10 and the pool
recycle interval to 7200 seconds when not explicitly configured. -/
theorem mysql_driver_defaults (unu : Bool) (cfg : Config) (info : UrlInfo)
    (options : EngineOptions) (hmy : startswith info.drivername "mysql" = true) :
    ∃ i o, apply_driver_hacks unu cfg info options = Except.ok (i, o) ∧
      i.query_charset = some (info.query_charset.getD "utf8") ∧
      (¬info.drivername = "mysql+gaerdbms" →
        o.pool_size = some (options.pool_size.getD 10) ∧
        o.pool_recycle = some (options.pool_recycle.getD 7200)) := by
  have hb : ∃ i2 o2, apply_driver_hacks_branch info options = Except.ok (i2, o2) ∧
      i2.query_charset = some (info.query_charset.getD "utf8") ∧
      (¬info.drivername = "mysql+gaerdbms" →
        o2.pool_size = some (options.pool_size.getD 10) ∧
        o2.pool_recycle = some (options.pool_recycle.getD 7200)) := by
    unfold apply_driver_hacks_branch
    rw [if_pos hmy]
    by_cases hg : info.drivername = "mysql+gaerdbms"
    · rw [if_pos hg]
      exact ⟨_, _, rfl, rfl, fun h => absurd hg h⟩
    · rw [if_neg hg]
      exact ⟨_, _, rfl, rfl, fun _ => ⟨rfl, rfl⟩⟩
  obtain ⟨i2, o2, hb, hcs, hpool⟩ := hb
  rw [apply_driver_hacks_ok unu cfg hb]
  refine ⟨_, _, rfl, ?_, ?_⟩
  · rw [(apply_unicode_hack_fields unu cfg (i2, o2)).1]
    exact hcs
  · intro h
    obtain ⟨h1, h2⟩ := hpool h
    refine ⟨?_, ?_⟩
    · rw [(apply_unicode_hack_fields unu cfg (i2, o2)).2.1]
      exact h1
    · rw [(apply_unicode_hack_fields unu cfg (i2, o2)).2.2.1]
      exact h2

theorem mysql_driver_defaults_witness :
    ∃ i o,
      apply_driver_hacks true
        (Config.mk (some "mysql://localhost/db") none none none none none none none none none)
        (UrlInfo.mk "mysql+pymysql" (some "db") none) EngineOptions.empty
        = Except.ok (i, o) ∧
      i.query_charset = some "utf8" ∧
      (¬"mysql+pymysql" = "mysql+gaerdbms" →
        o.pool_size = some 10 ∧ o.pool_recycle = some 7200) :=
  mysql_driver_defaults true _ _ EngineOptions.empty (by decide)

theorem scoped_session_scoping_witness :
    ((((ScopedSessionRegistry.mk [] 0).access 1).2.access 1).1
        = ((ScopedSessionRegistry.mk [] 0).access 1).1) ∧
    ((((ScopedSessionRegistry.mk [] 0).access 1).2.access 2).1
        ≠ ((ScopedSessionRegistry.mk [] 0).access 1).1) ∧
    afind 1 (((ScopedSessionRegistry.mk [] 0).access 1).2.remove 1).sessions = none ∧
    (((((ScopedSessionRegistry.mk [] 0).access 1).2.remove 1).access 1).1
        ≠ ((ScopedSessionRegistry.mk [] 0).access 1).1) :=
  scoped_session_scoping (ScopedSessionRegistry.mk [] 0) (by decide) 1 2 (by decide)

/-! ### Bind routing: `get_binds` and the schema operations -/

theorem mem_get_tables_for_bind {tables : List Table} {bind : Option String} {t : Table} :
    t ∈ get_tables_for_bind tables bind ↔ t ∈ tables ∧ t.bind_key = bind := by
  simp [get_tables_for_bind, List.mem_filter]

theorem resolve_engine_primary (cfg : Config) (u : String) (hu : cfg.database_uri = some u) :
    resolve_engine cfg none = Except.ok (Engine.mk u (cfg.echo.getD false)) := by
  simp [resolve_engine, get_uri, hu]

theorem resolve_engine_secondary (cfg : Config) (b : String)
    (hb : b ∈ (cfg.binds.getD []).map Prod.fst) :
    ∃ v, afind b (cfg.binds.getD []) = some v ∧
      resolve_engine cfg (some b) = Except.ok (Engine.mk v (cfg.echo.getD false)) := by
  obtain ⟨v, hv⟩ := afind_isSome_of_mem_keys hb
  exact ⟨v, hv, by simp [resolve_engine, get_uri, hv]⟩

theorem resolve_engine_total_eq {cfg : Config} {b : Option String} {e : Engine}
    (he : resolve_engine cfg b = Except.ok e) : resolve_engine_total cfg b = e := by
  unfold resolve_engine_total
  rw [he]

theorem get_binds_loop_ok (cfg : Config) (tables : List Table) (eng : Option String → Engine) :
    ∀ bs : List (Option String), (∀ b ∈ bs, resolve_engine cfg b = Except.ok (eng b)) →
      get_binds_loop cfg tables bs =
        Except.ok (bs.flatMap (fun b => (get_tables_for_bind tables b).map (fun t => (t, eng b)))) := by
  intro bs
  induction bs with
  | nil => intro _; rfl
  | cons b rest ih =>
    intro h
    have hb := h b (List.mem_cons_self b rest)
    have hrest := ih (fun x hx => h x (List.mem_cons_of_mem b hx))
    simp only [get_binds_loop, hb, hrest, List.flatMap_cons]

/-- C7: `get_binds` maps every declared table whose bind is configured
(primary included) to the engine resolved for that table's owning bind,
iterating the bind identifiers primary-first and then the configured
secondary binds in declaration order. -/
theorem get_binds_mapping (cfg : Config) (tables : List Table) (u : String)
    (hu : cfg.database_uri = some u) :
    ∃ l, get_binds cfg tables = Except.ok l ∧
      (∀ b ∈ (none :: (cfg.binds.getD []).map (fun p => some p.1) : List (Option String)),
        resolve_engine cfg b = Except.ok (resolve_engine_total cfg b)) ∧
      l = (none :: (cfg.binds.getD []).map (fun p => some p.1)).flatMap
            (fun b => (get_tables_for_bind tables b).map
              (fun t => (t, resolve_engine_total cfg b))) ∧
      (∀ p ∈ l, p.1 ∈ tables ∧ resolve_engine cfg p.1.bind_key = Except.ok p.2) ∧
      (∀ t ∈ tables,
        t.bind_key ∈ (none :: (cfg.binds.getD []).map (fun p => some p.1) : List (Option String)) →
        (t, resolve_engine_total cfg t.bind_key) ∈ l ∧
          resolve_engine cfg t.bind_key = Except.ok (resolve_engine_total cfg t.bind_key)) := by
  have hres : ∀ b ∈ (none :: (cfg.binds.getD []).map (fun p => some p.1) :
      List (Option String)), resolve_engine cfg b = Except.ok (resolve_engine_total cfg b) := by
    intro b hb
    rcases List.mem_cons.mp hb with h | h
    · subst h
      have hp := resolve_engine_primary cfg u hu
      rw [hp, resolve_engine_total_eq hp]
    · rw [List.mem_map] at h
      obtain ⟨p, hp, rfl⟩ := h
      obtain ⟨v, _, hres2⟩ :=
        resolve_engine_secondary cfg p.1 (List.mem_map_of_mem Prod.fst hp)
      rw [hres2, resolve_engine_total_eq hres2]
  have hloop := get_binds_loop_ok cfg tables (resolve_engine_total cfg) _ hres
  refine ⟨_, hloop, hres, rfl, ?_, ?_⟩
  · intro p hp
    rw [List.mem_flatMap] at hp
    obtain ⟨b, hb, hp2⟩ := hp
    rw [List.mem_map] at hp2
    obtain ⟨t, ht, rfl⟩ := hp2
    obtain ⟨ht1, ht2⟩ := mem_get_tables_for_bind.mp ht
    refine ⟨ht1, ?_⟩
    show resolve_engine cfg t.bind_key = Except.ok (resolve_engine_total cfg b)
    rw [ht2]
    exact hres b hb
  · intro t ht hkey
    refine ⟨?_, hres _ hkey⟩
    rw [List.mem_flatMap]
    exact ⟨t.bind_key, hkey,
      List.mem_map_of_mem _ (mem_get_tables_for_bind.mpr ⟨ht, rfl⟩)⟩

theorem get_binds_mapping_witness :
    ∃ l, get_binds demo_config demo_tables = Except.ok l ∧
      (∀ b ∈ (none :: (demo_config.binds.getD []).map (fun p => some p.1) :
          List (Option String)),
        resolve_engine demo_config b = Except.ok (resolve_engine_total demo_config b)) ∧
      l = (none :: (demo_config.binds.getD []).map (fun p => some p.1)).flatMap
            (fun b => (get_tables_for_bind demo_tables b).map
              (fun t => (t, resolve_engine_total demo_config b))) ∧
      (∀ p ∈ l, p.1 ∈ demo_tables ∧
        resolve_engine demo_config p.1.bind_key = Except.ok p.2) ∧
      (∀ t ∈ demo_tables,
        t.bind_key ∈ (none :: (demo_config.binds.getD []).map (fun p => some p.1) :
            List (Option String)) →
        (t, resolve_engine_total demo_config t.bind_key) ∈ l ∧
          resolve_engine demo_config t.bind_key
            = Except.ok (resolve_engine_total demo_config t.bind_key)) :=
  get_binds_mapping demo_config demo_tables "sqlite:///:memory:" rfl

theorem execute_loop_props (cfg : Config) (tables : List Table) (skip : Bool) :
    ∀ (bs : List (Option String)) (ops : List SchemaOp),
      execute_loop cfg tables skip bs = Except.ok ops →
      ops.map SchemaOp.bind = bs ∧
      ∀ op ∈ ops, resolve_engine cfg op.bind = Except.ok op.engine ∧
        op.tables = (if skip then none else some (get_tables_for_bind tables op.bind)) := by
  intro bs
  induction bs with
  | nil =>
    intro ops h
    simp only [execute_loop, Except.ok.injEq] at h
    subst h
    simp
  | cons b rest ih =>
    intro ops h
    simp only [execute_loop] at h
    cases hr : resolve_engine cfg b with
    | error e => rw [hr] at h; exact absurd h (by simp)
    | ok eng =>
      rw [hr] at h
      cases hl : execute_loop cfg tables skip rest with
      | error e => rw [hl] at h; exact absurd h (by simp)
      | ok l =>
        rw [hl] at h
        simp only [Except.ok.injEq] at h
        subst h
        obtain ⟨h1, h2⟩ := ih l hl
        refine ⟨by simp [h1], ?_⟩
        intro op hop
        rcases List.mem_cons.mp hop with hh | hh
        · subst hh
          exact ⟨hr, rfl⟩
        · exact h2 op hh

/-- C8: the bind selector dispatch of the schema operations — every
configured bind for the string selector `__all__`, exactly the named
bind for any other string, exactly the primary for `None`, and exactly
the listed identifiers for a list — and, per selected bind, the
operation runs against that bind's resolved engine with exactly the
tables owned by the bind, except when tables are skipped (`reflect`). -/
theorem schema_operations_dispatch (cfg : Config) (tables : List Table) :
    (select_binds cfg (BindSelector.str "__all__")
        = none :: (cfg.binds.getD []).map (fun p => some p.1)) ∧
    (∀ s, ¬s = "__all__" → select_binds cfg (BindSelector.str s) = [some s]) ∧
    (select_binds cfg BindSelector.pyNone = [none]) ∧
    (∀ bs, select_binds cfg (BindSelector.list bs) = bs) ∧
    (∀ sel skip ops, execute_for_all_tables cfg tables sel skip = Except.ok ops →
      ops.map SchemaOp.bind = select_binds cfg sel ∧
      ∀ op ∈ ops, resolve_engine cfg op.bind = Except.ok op.engine ∧
        op.tables = (if skip then none else some (get_tables_for_bind tables op.bind))) ∧
    (∀ sel, create_all cfg tables sel = execute_for_all_tables cfg tables sel false ∧
      drop_all cfg tables sel = execute_for_all_tables cfg tables sel false ∧
      reflect cfg tables sel = execute_for_all_tables cfg tables sel true) := by
  refine ⟨by simp [select_binds], ?_, rfl, fun bs => rfl, ?_, fun sel => ⟨rfl, rfl, rfl⟩⟩
  · intro s hs
    simp [select_binds, hs]
  · intro sel skip ops h
    exact execute_loop_props cfg tables skip _ ops h

theorem schema_operations_dispatch_witness :
    select_binds demo_config (BindSelector.str "reporting") = [some "reporting"] ∧
    (List.map SchemaOp.bind
        [SchemaOp.mk none (Engine.mk "sqlite:///:memory:" false)
          (some [Table.mk "users" none])]
      = select_binds demo_config BindSelector.pyNone) :=
  ⟨(schema_operations_dispatch demo_config demo_tables).2.1 "reporting" (by decide),
   ((schema_operations_dispatch demo_config demo_tables).2.2.2.2.1 BindSelector.pyNone false
      [SchemaOp.mk none (Engine.mk "sqlite:///:memory:" false)
        (some [Table.mk "users" none])] rfl).1⟩

/-- C10: after `init_app`, every recognized configuration option set to
a falsy value is replaced by its default and is indistinguishable from
the option being unset; in particular a configured pool size of 0 is
normalized to `None` and is not copied into the engine options. -/
theorem init_app_falsy_normalization (cfg : Config) :
    ((cfg.database_uri = none ∨ cfg.database_uri = some "") →
      (init_app cfg).database_uri = some "sqlite:///:memory:" ∧
      init_app cfg = init_app { cfg with database_uri := none }) ∧
    ((cfg.binds = none ∨ cfg.binds = some []) →
      (init_app cfg).binds = none ∧ init_app cfg = init_app { cfg with binds := none }) ∧
    ((cfg.native_unicode = none ∨ cfg.native_unicode = some false) →
      (init_app cfg).native_unicode = none ∧
      init_app cfg = init_app { cfg with native_unicode := none }) ∧
    ((cfg.echo = none ∨ cfg.echo = some false) →
      (init_app cfg).echo = some false ∧ init_app cfg = init_app { cfg with echo := none }) ∧
    ((cfg.record_queries = none ∨ cfg.record_queries = some false) →
      (init_app cfg).record_queries = none ∧
      init_app cfg = init_app { cfg with record_queries := none }) ∧
    ((cfg.pool_size = none ∨ cfg.pool_size = some 0) →
      (init_app cfg).pool_size = none ∧
      init_app cfg = init_app { cfg with pool_size := none }) ∧
    ((cfg.pool_timeout = none ∨ cfg.pool_timeout = some 0) →
      (init_app cfg).pool_timeout = none ∧
      init_app cfg = init_app { cfg with pool_timeout := none }) ∧
    ((cfg.pool_recycle = none ∨ cfg.pool_recycle = some 0) →
      (init_app cfg).pool_recycle = none ∧
      init_app cfg = init_app { cfg with pool_recycle := none }) ∧
    ((cfg.max_overflow = none ∨ cfg.max_overflow = some 0) →
      (init_app cfg).max_overflow = none ∧
      init_app cfg = init_app { cfg with max_overflow := none }) ∧
    ((cfg.commit_on_response = none ∨ cfg.commit_on_response = some false) →
      (init_app cfg).commit_on_response = some false ∧
      init_app cfg = init_app { cfg with commit_on_response := none }) ∧
    (cfg.pool_size = some 0 →
      (apply_pool_defaults (init_app cfg) EngineOptions.empty).pool_size = none) := by
  refine ⟨?_, ?_, ?_, ?_, ?_, ?_, ?_, ?_, ?_, ?_, ?_⟩
  · rintro (h | h) <;> simp [init_app, h]
  · rintro (h | h) <;> simp [init_app, h]
  · rintro (h | h) <;> simp [init_app, h]
  · rintro (h | h) <;> simp [init_app, h]
  · rintro (h | h) <;> simp [init_app, h]
  · rintro (h | h) <;> simp [init_app, h]
  · rintro (h | h) <;> simp [init_app, h]
  · rintro (h | h) <;> simp [init_app, h]
  · rintro (h | h) <;> simp [init_app, h]
  · rintro (h | h) <;> simp [init_app, h]
  · intro h
    have h6 : (init_app cfg).pool_size = none := by simp [init_app, h]
    cases hpt : (init_app cfg).pool_timeout <;>
      cases hpr : (init_app cfg).pool_recycle <;>
      cases hmo : (init_app cfg).max_overflow <;>
      simp [apply_pool_defaults, EngineOptions.empty, h6, hpt, hpr, hmo]

theorem init_app_falsy_normalization_witness :
    (init_app (Config.mk (some "") (some []) (some false) (some false) (some false)
        (some 0) (some 0) (some 0) (some 0) (some false))).pool_size = none ∧
    (apply_pool_defaults
        (init_app (Config.mk (some "") (some []) (some false) (some false) (some false)
          (some 0) (some 0) (some 0) (some 0) (some false)))
        EngineOptions.empty).pool_size = none :=
  ⟨((init_app_falsy_normalization _).2.2.2.2.2.1 (Or.inr rfl)).1,
   (init_app_falsy_normalization _).2.2.2.2.2.2.2.2.2.2 rfl⟩

end GatcoSqlalchemy
